import Mathlib

/-!
# Verification of the FHE dice game client orchestration layer

Shallow embedding of the logic-bearing parts of the repository:

* the `useEncryptedDiceGame` hook (contract path): `GameRecord`, `startGame`,
  `resolveGame`, `mintTokens`, `swapETHForROLL`, the `gameCounter` read and the
  local `gameHistory` list;
* the `GameInterface` component: `handleRoll`, `handleRollFallback`,
  `handleSwap` (validation and dispatch);
* the demo `Home` page (app/page.tsx): `handleRoll` and `handleSwap` balance
  and history updates;
* the `GameHistory` component: the derived `stats` record.

Modelling conventions: JavaScript numbers and bigints are modelled as exact
rationals (`ℚ`); `parseFloat` results are `Option ℚ` (`none` = NaN); timestamps
are `ℕ`; asynchronous effects (wallet, ledger, FHE client) are supplied through
an explicit environment record, and each React state update becomes a pure
state-passing function.  Sequential React state batching makes every operation
an atomic state transformation.
-/

namespace DiceGame

/-- The user's parity prediction, `"even" | "odd"` in the source. -/
inductive Prediction
  | even
  | odd
deriving DecidableEq, Repr

/-- `prediction === "even" ? 0 : 1` in `startGame`. -/
def predictionValue : Prediction → ℕ
  | Prediction.even => 0
  | Prediction.odd => 1

/-- `parseEther` from viem: scale a decimal token amount to wei.  Amounts are
exact rationals, so the conversion is multiplication by `10 ^ 18`. -/
def parseEther (x : ℚ) : ℚ := x * 10 ^ 18

/-! ## Encryption request model (FHE client boundary)

`encryptWith(builder => ...)` builds one encryption request; `builder.add8` /
`builder.add256` append one typed field.  The client returns per-request
`handles` (one ciphertext handle per field, input order) plus one
`inputProof`. -/

/-- One plaintext field of an encryption request: declared bit width plus
value. -/
structure EncField where
  width : ℕ
  value : ℚ
deriving DecidableEq, Repr

/-- An encryption request: the ordered fields added to one builder. -/
abbrev EncRequest := List EncField

/-- The FHE client's answer to one encryption request: ciphertext `handles`
(one per field, in field order) and a single `inputProof`. -/
structure EncResult where
  handles : List ℕ
  inputProof : ℕ
deriving DecidableEq, Repr

/-! ## Contract-path hook model (`useEncryptedDiceGame`) -/

/-- `GameRecord` from the hook: outcome fields `result` / `won` / `payout` are
optional, `isResolved` is the lifecycle flag. -/
structure GameRecord where
  id : ℕ
  diceCount : ℕ
  prediction : Prediction
  stake : ℚ
  result : Option (List ℕ)
  won : Option Bool
  payout : Option ℚ
  timestamp : ℕ
  isResolved : Bool
deriving DecidableEq, Repr

/-- The machine-checkable kinds behind the hook's `setError` messages. -/
inductive HookError
  | notAvailable
  | encryptPredictionFailed
  | encryptStakeFailed
  | contractOrWalletMissing
deriving DecidableEq, Repr

/-- Contract functions the hook invokes through `writeContract`. -/
inductive ContractFn
  | startGame
  | resolveGame
  | mintTokens
  | swapETHForROLL
deriving DecidableEq, Repr

/-- One argument of a `writeContract` call. -/
inductive TxArg
  | num (n : ℕ)
  | amount (q : ℚ)
  | bytes (b : ℕ)
deriving DecidableEq, Repr

/-- One `writeContract` call: target function, ordered args, optional ETH
value transfer. -/
structure Tx where
  fn : ContractFn
  args : List TxArg
  value : Option ℚ
deriving DecidableEq, Repr

/-- Environment of one hook operation: availability flags plus the awaited
results of the (up to two) `encryptWith` calls (`none` = falsy result). -/
structure Env where
  contractAvailable : Bool
  walletConnected : Bool
  encryptWithAvailable : Bool
  encPrediction : Option EncResult
  encStake : Option EncResult
deriving DecidableEq, Repr

/-- The hook's mutable state, plus observation logs for the externally visible
effects: every encryption request submitted to the FHE client
(`encRequests`) and every transaction submitted to the ledger
(`submittedTxs`). -/
structure HookState where
  error : Option HookError
  gameHistory : List GameRecord
  gameCounter : Option ℕ
  encRequests : List EncRequest
  submittedTxs : List Tx
deriving DecidableEq, Repr

/-- Initial hook state: no error, empty history, `gameCounter` not yet
fetched, nothing submitted. -/
def initHookState : HookState :=
  { error := none, gameHistory := [], gameCounter := none,
    encRequests := [], submittedTxs := [] }

/-- `startGame(diceCount, prediction, stakeAmount)` from the hook: guard on
contract / wallet / `encryptWith`, encrypt the prediction (8-bit) in one
request, then the stake (256-bit) in a second request, submit the
`startGame` transaction zipping each result's first handle with its proof,
and prepend an unresolved `GameRecord` whose id is the last fetched
`gameCounter` (`Number(gameCounter || 0)`). -/
def startGame (env : Env) (st : HookState) (now : ℕ) (diceCount : ℕ)
    (prediction : Prediction) (stakeAmount : ℚ) : HookState :=
  if env.contractAvailable && env.walletConnected && env.encryptWithAvailable then
    let st1 : HookState :=
      { st with error := none,
                encRequests :=
                  st.encRequests ++ [[⟨8, (predictionValue prediction : ℚ)⟩]] }
    match env.encPrediction with
    | none => { st1 with error := some HookError.encryptPredictionFailed }
    | some encP =>
      let st2 : HookState :=
        { st1 with encRequests :=
            st1.encRequests ++ [[⟨256, parseEther stakeAmount⟩]] }
      match env.encStake with
      | none => { st2 with error := some HookError.encryptStakeFailed }
      | some encS =>
        { st2 with
          submittedTxs := st2.submittedTxs ++
            [{ fn := ContractFn.startGame,
               args := [TxArg.num diceCount,
                        TxArg.bytes (encP.handles.headD 0),
                        TxArg.bytes encP.inputProof,
                        TxArg.bytes (encS.handles.headD 0),
                        TxArg.bytes encS.inputProof],
               value := none }],
          gameHistory :=
            { id := st.gameCounter.getD 0, diceCount := diceCount,
              prediction := prediction, stake := stakeAmount,
              result := none, won := none, payout := none,
              timestamp := now, isResolved := false } :: st.gameHistory }
  else
    { st with error := some HookError.notAvailable }

/-- `resolveGame(gameId)` from the hook: guard on contract and wallet, then
submit the `resolveGame` transaction.  The local `gameHistory` is not
touched; outcome enforcement lives in the on-chain contract. -/
def resolveGame (env : Env) (st : HookState) (gameId : ℕ) : HookState :=
  if env.contractAvailable && env.walletConnected then
    { st with error := none,
              submittedTxs := st.submittedTxs ++
                [{ fn := ContractFn.resolveGame,
                   args := [TxArg.num gameId], value := none }] }
  else
    { st with error := some HookError.contractOrWalletMissing }

/-- `mintTokens(amount)` from the hook. -/
def mintTokens (env : Env) (st : HookState) (amount : ℚ) : HookState :=
  if env.contractAvailable && env.walletConnected then
    { st with error := none,
              submittedTxs := st.submittedTxs ++
                [{ fn := ContractFn.mintTokens,
                   args := [TxArg.amount (parseEther amount)], value := none }] }
  else
    { st with error := some HookError.contractOrWalletMissing }

/-- `swapETHForROLL(ethAmount)` from the hook: value-bearing transaction. -/
def swapETHForROLL (env : Env) (st : HookState) (ethAmount : ℚ) : HookState :=
  if env.contractAvailable && env.walletConnected then
    { st with error := none,
              submittedTxs := st.submittedTxs ++
                [{ fn := ContractFn.swapETHForROLL,
                   args := [], value := some (parseEther ethAmount) }] }
  else
    { st with error := some HookError.contractOrWalletMissing }

/-- `refetchGameCounter` delivering the current on-chain counter `c`. -/
def refreshGameCounter (st : HookState) (c : ℕ) : HookState :=
  { st with gameCounter := some c }

/-- `clearError` from the hook. -/
def clearError (st : HookState) : HookState := { st with error := none }

/-- One hook operation, for reasoning over arbitrary interleavings. -/
inductive HookOp
  | startOp (env : Env) (now diceCount : ℕ) (p : Prediction) (s : ℚ)
  | resolveOp (env : Env) (gameId : ℕ)
  | mintOp (env : Env) (amount : ℚ)
  | swapOp (env : Env) (amount : ℚ)
  | refreshOp (c : ℕ)
  | clearErrorOp

/-- Apply one hook operation. -/
def stepHook (st : HookState) : HookOp → HookState
  | HookOp.startOp env now d p s => startGame env st now d p s
  | HookOp.resolveOp env g => resolveGame env st g
  | HookOp.mintOp env a => mintTokens env st a
  | HookOp.swapOp env a => swapETHForROLL env st a
  | HookOp.refreshOp c => refreshGameCounter st c
  | HookOp.clearErrorOp => clearError st

/-- Run a sequence of hook operations from the initial state. -/
def runHook (ops : List HookOp) : HookState :=
  ops.foldl stepHook initHookState

/-- A record carries outcome data when any of `result`, `won`, `payout` is
present. -/
def hasOutcome (r : GameRecord) : Bool :=
  r.result.isSome || r.won.isSome || r.payout.isSome

/-! ## Demo-path model (app/page.tsx `Home` and `GameInterface`) -/

/-- `"win" | "loss"` from the demo `GameRecord`. -/
inductive RollResult
  | win
  | loss
deriving DecidableEq, Repr

/-- The demo `GameRecord` (page.tsx / GameHistory.tsx): every entry is a
completed game carrying its dice, bet, result and payout.  The id is
`Date.now().toString()`. -/
structure DemoRecord where
  id : String
  timestamp : ℕ
  diceMode : ℕ
  diceValues : List ℕ
  bet : ℚ
  result : RollResult
  payout : ℚ
deriving DecidableEq, Repr

/-- Demo `Home` state: the two balances and the demo game history. -/
structure HomeState where
  rollBalance : ℚ
  ethBalance : ℚ
  gameHistory : List DemoRecord
deriving DecidableEq, Repr

/-- Initial demo state: `rollBalance = 1000`, `ethBalance = 5`, no games. -/
def initHomeState : HomeState :=
  { rollBalance := 1000, ethBalance := 5, gameHistory := [] }

/-- `handleRoll(bet, result)` from the demo `Home` page: debit the stake
(credit the payout on a win) and append the completed record. -/
def homeHandleRoll (home : HomeState) (now : ℕ) (bet : ℚ)
    (diceValues : List ℕ) (win : Bool) (payout : ℚ) : HomeState :=
  { home with
    rollBalance :=
      if win then home.rollBalance - bet + payout else home.rollBalance - bet,
    gameHistory := home.gameHistory ++
      [{ id := toString now, timestamp := now, diceMode := diceValues.length,
         diceValues := diceValues, bet := bet,
         result := if win then RollResult.win else RollResult.loss,
         payout := payout }] }

/-- `fromToken : "ETH" | "ROLL"` — the source currency of a swap. -/
inductive SwapDirection
  | eth
  | roll
deriving DecidableEq, Repr

/-- `handleSwap(fromToken, amount)` from the demo `Home` page: fixed rate
1 ETH = 1000 ROLL, both balances updated in one step. -/
def homeHandleSwap (home : HomeState) (fromToken : SwapDirection)
    (amount : ℚ) : HomeState :=
  match fromToken with
  | SwapDirection.eth =>
    { home with ethBalance := home.ethBalance - amount,
                rollBalance := home.rollBalance + amount * 1000 }
  | SwapDirection.roll =>
    { home with rollBalance := home.rollBalance - amount,
                ethBalance := home.ethBalance + amount / 1000 }

/-- Errors surfaced by `GameInterface.handleRoll` via `toast.error`. -/
inductive RollError
  | invalidStake
  | insufficientBalance
deriving DecidableEq, Repr

/-- `handleRollFallback(stake)` from `GameInterface` (demo mode): reject when
the stake exceeds the ROLL balance, otherwise roll `results` (the random
dice are an oracle parameter), decide the win from the parity of their sum
against the prediction, pay `1.95×` the stake on a win, and hand the
completed game to the demo `Home` state. -/
def handleRollFallback (home : HomeState) (stake : ℚ)
    (prediction : Prediction) (results : List ℕ) (now : ℕ) :
    HomeState × Option RollError :=
  if home.rollBalance < stake then
    (home, some RollError.insufficientBalance)
  else
    let sum := results.sum
    let isEven : Bool := sum % 2 == 0
    let win : Bool :=
      (prediction == Prediction.even && isEven) ||
      (prediction == Prediction.odd && !isEven)
    let payout : ℚ := if win then stake * (195 / 100) else 0
    (homeHandleRoll home now stake results win payout, none)

/-- `handleRoll` from `GameInterface`: parse and validate the stake
(`parseFloat` modelled as `Option ℚ`, `none` = NaN), then either the
contract path (`startGame`) or the demo fallback, depending on
`isContractAvailable`.  Only the stake is validated here. -/
def handleRoll (env : Env) (hook : HookState) (home : HomeState)
    (stakeAmount : Option ℚ) (diceMode : ℕ) (prediction : Prediction)
    (demoDice : List ℕ) (now : ℕ) :
    HookState × HomeState × Option RollError :=
  match stakeAmount with
  | none => (hook, home, some RollError.invalidStake)
  | some stake =>
    if stake ≤ 0 then (hook, home, some RollError.invalidStake)
    else if !env.contractAvailable then
      let fb := handleRollFallback home stake prediction demoDice now
      (hook, fb.1, fb.2)
    else
      (startGame env hook now diceMode prediction stake, home, none)

/-- Errors surfaced by `GameInterface.handleSwap` via `toast.error`. -/
inductive SwapError
  | invalidAmount
  | insufficientBalance
deriving DecidableEq, Repr

/-- `handleSwap` from `GameInterface`: validate `amount` (NaN or `≤ 0` →
invalid amount; greater than the source-currency balance → insufficient
balance), then either submit the on-chain swap (contract available and
ETH→ROLL: local demo balances untouched, the transaction goes through
`swapETHForROLL` on the hook) or apply the demo swap. -/
def handleSwap (home : HomeState) (isContractAvailable : Bool)
    (fromToken : SwapDirection) (swapAmount : Option ℚ) :
    HomeState × Option SwapError :=
  match swapAmount with
  | none => (home, some SwapError.invalidAmount)
  | some amount =>
    if amount ≤ 0 then (home, some SwapError.invalidAmount)
    else
      let fromBalance :=
        match fromToken with
        | SwapDirection.eth => home.ethBalance
        | SwapDirection.roll => home.rollBalance
      if fromBalance < amount then (home, some SwapError.insufficientBalance)
      else if isContractAvailable && (fromToken == SwapDirection.eth) then
        (home, none)
      else
        (homeHandleSwap home fromToken amount, none)

/-! ## Derived statistics (`GameHistory` component) -/

/-- The `stats` object computed inside `GameHistory` on every render. -/
structure Stats where
  totalGames : ℕ
  wins : ℕ
  losses : ℕ
  totalWagered : ℚ
  netProfit : ℚ
deriving DecidableEq, Repr

/-- `stats` from `GameHistory.tsx`, recomputed from the current records:
counts, filters and reductions over the record list. -/
def statsOf (records : List DemoRecord) : Stats :=
  { totalGames := records.length,
    wins := (records.filter (fun r => r.result == RollResult.win)).length,
    losses := (records.filter (fun r => r.result == RollResult.loss)).length,
    totalWagered := (records.map (fun r => r.bet)).sum,
    netProfit := (records.map (fun r => r.payout - r.bet)).sum }

/-- Spec-side recursion: net profit as the sum over (resolved) records of
`payout - stake`, following the spec words for `statistics().netProfit`. -/
def netProfitSpec : List DemoRecord → ℚ
  | [] => 0
  | r :: rs => (r.payout - r.bet) + netProfitSpec rs

/-- Spec-side recursion: total staked as the sum of the records' stakes. -/
def totalStakedSpec : List DemoRecord → ℚ
  | [] => 0
  | r :: rs => r.bet + totalStakedSpec rs

/-- Spec-side recursion: number of won games among the records. -/
def winCountSpec : List DemoRecord → ℕ
  | [] => 0
  | r :: rs => (if r.result = RollResult.win then 1 else 0) + winCountSpec rs

/-! ## Spec-modelled on-chain resolve semantics

The Solidity `EncryptedDiceGame` contract itself is not part of the given
sources; only its address table, ABI references and client callers are.  The
lifecycle guards of `resolveGame` are therefore modelled from the spec. -/

/-- Session lifecycle from the spec data model. -/
inductive Lifecycle
  | pending
  | confirmed
  | resolved
  | failed
deriving DecidableEq, Repr

/-- A resolved session's outcome: dice values, win flag, payout. -/
structure SpecOutcome where
  diceValues : List ℕ
  win : Bool
  payout : ℚ
deriving DecidableEq, Repr

/-- A game session as the spec describes it: lifecycle plus optional
outcome. -/
structure SpecSession where
  lifecycle : Lifecycle
  outcome : Option SpecOutcome
deriving DecidableEq, Repr

/-- Shared state the resolve guards must not mutate on failure: the session
table and the balance. -/
structure SpecStore where
  sessions : List (ℕ × SpecSession)
  rollBalance : ℚ
deriving DecidableEq, Repr

/-- Failure kinds of the resolve operation, from the spec taxonomy. -/
inductive ResolveError
  | notReady
  | alreadyResolved
  | invalidTransition
deriving DecidableEq, Repr

/-- Modelled from the spec: the on-chain `EncryptedDiceGame.resolveGame`
guards, missing from the given sources (only the client caller is present).
Per spec §4.5, resolving is only valid when the session is CONFIRMED; it
fails with `NotReady` while PENDING and `AlreadyResolved` once RESOLVED,
and a failed resolve mutates no shared state. -/
def resolveGameSpec (st : SpecStore) (sessionId : ℕ) (out : SpecOutcome) :
    SpecStore × Option ResolveError :=
  match st.sessions.lookup sessionId with
  | none => (st, some ResolveError.invalidTransition)
  | some s =>
    match s.lifecycle with
    | Lifecycle.pending => (st, some ResolveError.notReady)
    | Lifecycle.resolved => (st, some ResolveError.alreadyResolved)
    | Lifecycle.failed => (st, some ResolveError.invalidTransition)
    | Lifecycle.confirmed =>
      ({ st with sessions := st.sessions.map (fun p =>
          if p.1 = sessionId then
            (p.1, ⟨Lifecycle.resolved, some out⟩)
          else p) }, none)

/-! ## Shared concrete instances -/

/-- A fully available environment with successful encryption results. -/
def goodEnv : Env :=
  { contractAvailable := true, walletConnected := true,
    encryptWithAvailable := true,
    encPrediction := some { handles := [11], inputProof := 21 },
    encStake := some { handles := [12], inputProof := 22 } }

/-! ## C1: outcome fields present iff resolved -/

/-- Invariant maintained by every hook operation: every record of the local
game history is unresolved and carries no outcome data. -/
def unresolvedNoOutcome (st : HookState) : Prop :=
  ∀ r ∈ st.gameHistory,
    r.result = none ∧ r.won = none ∧ r.payout = none ∧ r.isResolved = false

lemma stepHook_unresolved (st : HookState) (op : HookOp)
    (h : unresolvedNoOutcome st) : unresolvedNoOutcome (stepHook st op) := by
  cases op with
  | startOp env now d p s =>
    intro r hr
    simp only [stepHook, startGame] at hr
    split at hr
    · split at hr
      · exact h r hr
      · split at hr
        · exact h r hr
        · rcases List.mem_cons.mp hr with hEq | hMem
          · subst hEq; exact ⟨rfl, rfl, rfl, rfl⟩
          · exact h r hMem
    · exact h r hr
  | resolveOp env g =>
    intro r hr
    simp only [stepHook, resolveGame] at hr
    split at hr <;> exact h r hr
  | mintOp env a =>
    intro r hr
    simp only [stepHook, mintTokens] at hr
    split at hr <;> exact h r hr
  | swapOp env a =>
    intro r hr
    simp only [stepHook, swapETHForROLL] at hr
    split at hr <;> exact h r hr
  | refreshOp c =>
    intro r hr
    exact h r hr
  | clearErrorOp =>
    intro r hr
    exact h r hr

lemma runHook_unresolved (ops : List HookOp) :
    unresolvedNoOutcome (runHook ops) := by
  have hgen : ∀ st, unresolvedNoOutcome st →
      unresolvedNoOutcome (ops.foldl stepHook st) := by
    induction ops with
    | nil => intro st h; simpa using h
    | cons op rest ih =>
      intro st h
      exact ih _ (stepHook_unresolved st op h)
  refine hgen initHookState ?_
  intro r hr
  simp [initHookState] at hr

/-- C1: in every state reachable by hook operations, a session's outcome
fields (`result`, `won`, `payout`) are present iff the session is marked
resolved; moreover every session `startGame` creates starts without outcome
fields and with `isResolved = false`, and no operation in the client ever
attaches an outcome (so none marks a session resolved either). -/
theorem C1_outcome_iff_resolved (ops : List HookOp) (r : GameRecord)
    (hr : r ∈ (runHook ops).gameHistory) :
    (hasOutcome r = true ↔ r.isResolved = true) ∧
    hasOutcome r = false ∧ r.isResolved = false := by
  obtain ⟨h1, h2, h3, h4⟩ := runHook_unresolved ops r hr
  refine ⟨?_, ?_, h4⟩
  · simp [hasOutcome, h1, h2, h3, h4]
  · simp [hasOutcome, h1, h2, h3]

/-- The record one successful `startGame` from the initial state creates. -/
def firstRecord : GameRecord :=
  { id := 0, diceCount := 2, prediction := Prediction.even, stake := 10,
    result := none, won := none, payout := none, timestamp := 1,
    isResolved := false }

/-- Witness for C1: the invariant instantiated at the record produced by one
successful `startGame`. -/
theorem C1_witness :
    (firstRecord ∈
      (runHook [HookOp.startOp goodEnv 1 2 Prediction.even 10]).gameHistory) ∧
    ((hasOutcome firstRecord = true ↔ firstRecord.isResolved = true) ∧
     hasOutcome firstRecord = false ∧ firstRecord.isResolved = false) :=
  ⟨by decide,
   C1_outcome_iff_resolved [HookOp.startOp goodEnv 1 2 Prediction.even 10]
     firstRecord (by decide)⟩

/-! ## C2: resolve guards (spec-modelled) -/

/-- C2: resolving a session that is still PENDING fails with `NotReady`,
resolving one already RESOLVED fails with `AlreadyResolved`, and in both
cases the store (session table and balances) is returned unchanged.
Proved against the spec-modelled on-chain resolve semantics
`resolveGameSpec`; the client-side `resolveGame` only forwards the call. -/
theorem C2_resolve_guards (st : SpecStore) (sessionId : ℕ)
    (out : SpecOutcome) :
    (∀ outc, st.sessions.lookup sessionId =
        some { lifecycle := Lifecycle.pending, outcome := outc } →
      resolveGameSpec st sessionId out = (st, some ResolveError.notReady)) ∧
    (∀ outc, st.sessions.lookup sessionId =
        some { lifecycle := Lifecycle.resolved, outcome := outc } →
      resolveGameSpec st sessionId out =
        (st, some ResolveError.alreadyResolved)) := by
  constructor <;> intro outc h <;> unfold resolveGameSpec <;> rw [h]

/-- An example resolved outcome: dice `[3, 5]`, a win paying `19.5`. -/
def demoOutcome : SpecOutcome :=
  { diceValues := [3, 5], win := true, payout := 39 / 2 }

/-- A store holding a single still-PENDING session. -/
def pendingStore : SpecStore :=
  { sessions := [(1, { lifecycle := Lifecycle.pending, outcome := none })],
    rollBalance := 100 }

/-- Witness for C2: a store holding one PENDING session, resolved too early:
`NotReady` and the store is unchanged. -/
theorem C2_witness :
    (pendingStore.sessions.lookup 1 =
      some { lifecycle := Lifecycle.pending, outcome := none }) ∧
    resolveGameSpec pendingStore 1 demoOutcome =
      (pendingStore, some ResolveError.notReady) :=
  ⟨by decide, (C2_resolve_guards pendingStore 1 demoOutcome).1 none (by decide)⟩

/-! ## C3: input validation on starting a game -/

/-- Counterexample to C3: `startGame` performs no `diceCount` validation.
Called with `diceCount = 5 ∉ {1,2,3}` in a fully available environment it
reports no error, submits a transaction and creates a session, where the
claim demands an `InvalidInput` failure with no transaction and no new
session. -/
theorem C3_counterexample :
    (startGame goodEnv initHookState 0 5 Prediction.even 10).error = none ∧
    (startGame goodEnv initHookState 0 5 Prediction.even 10).submittedTxs.length = 1 ∧
    (startGame goodEnv initHookState 0 5 Prediction.even 10).gameHistory.length = 1 := by
  decide

/-- C3 (amended): only the stake is validated.  A non-numeric (`NaN`) or
non-positive stake makes `handleRoll` fail with the invalid-stake error
before anything else happens: no transaction is submitted and neither the
hook state (including the session list) nor the demo state changes.
`diceCount` is never validated at runtime; the UI restricts it to
`{1,2,3}` by construction. -/
theorem C3_amended (env : Env) (hook : HookState) (home : HomeState)
    (stakeAmount : Option ℚ) (diceMode : ℕ) (p : Prediction)
    (demoDice : List ℕ) (now : ℕ)
    (h : stakeAmount = none ∨ ∃ s, stakeAmount = some s ∧ s ≤ 0) :
    handleRoll env hook home stakeAmount diceMode p demoDice now =
      (hook, home, some RollError.invalidStake) := by
  rcases h with h | ⟨s, h, hs⟩
  · rw [h]; rfl
  · rw [h]
    simp [handleRoll, hs]

/-- Witness for C3 (amended): a zero stake is rejected with the invalid-stake
error and no state changes. -/
theorem C3_witness :
    (some (0 : ℚ) = none ∨ ∃ s, some (0 : ℚ) = some s ∧ s ≤ 0) ∧
    handleRoll goodEnv initHookState initHomeState (some 0) 1 Prediction.even
        [1] 0 =
      (initHookState, initHomeState, some RollError.invalidStake) :=
  ⟨Or.inr ⟨0, rfl, le_refl 0⟩,
   C3_amended goodEnv initHookState initHomeState (some 0) 1 Prediction.even
     [1] 0 (Or.inr ⟨0, rfl, le_refl 0⟩)⟩

/-! ## C4: shape of the encryption requests -/

/-- Counterexample to C4: a successful `startGame` submits two encryption
requests to the FHE client — one single-field 8-bit request for the
prediction, then one single-field 256-bit request for the stake — not one
atomic request containing both values as the claim states. -/
theorem C4_counterexample :
    (startGame goodEnv initHookState 0 2 Prediction.even 10).encRequests.length = 2 ∧
    (startGame goodEnv initHookState 0 2 Prediction.even 10).encRequests ≠
      [[⟨8, (0 : ℚ)⟩, ⟨256, parseEther 10⟩]] := by
  decide

/-- C4 (amended): `startGame` encrypts the prediction (8-bit) and the stake
(256-bit) in two separate single-value encryption requests, submitted in
that order, each yielding its own handle list and proof; the transaction
encoding zips them positionally — prediction handle, prediction proof,
stake handle, stake proof — after the dice count. -/
theorem C4_amended (env : Env) (st : HookState) (now d : ℕ) (p : Prediction)
    (s : ℚ) (encP encS : EncResult)
    (hc : env.contractAvailable = true) (hw : env.walletConnected = true)
    (he : env.encryptWithAvailable = true)
    (hp : env.encPrediction = some encP) (hs : env.encStake = some encS) :
    (startGame env st now d p s).encRequests =
      st.encRequests ++
        [[⟨8, (predictionValue p : ℚ)⟩], [⟨256, parseEther s⟩]] ∧
    (startGame env st now d p s).submittedTxs =
      st.submittedTxs ++
        [{ fn := ContractFn.startGame,
           args := [TxArg.num d,
                    TxArg.bytes (encP.handles.headD 0),
                    TxArg.bytes encP.inputProof,
                    TxArg.bytes (encS.handles.headD 0),
                    TxArg.bytes encS.inputProof],
           value := none }] := by
  simp [startGame, hc, hw, he, hp, hs]

/-- Witness for C4 (amended) at a concrete successful call. -/
theorem C4_witness :
    goodEnv.encPrediction = some { handles := [11], inputProof := 21 } ∧
    goodEnv.encStake = some { handles := [12], inputProof := 22 } ∧
    ((startGame goodEnv initHookState 1 2 Prediction.even 10).encRequests =
      initHookState.encRequests ++
        [[⟨8, (predictionValue Prediction.even : ℚ)⟩],
         [⟨256, parseEther 10⟩]] ∧
     (startGame goodEnv initHookState 1 2 Prediction.even 10).submittedTxs =
      initHookState.submittedTxs ++
        [{ fn := ContractFn.startGame,
           args := [TxArg.num 2, TxArg.bytes 11, TxArg.bytes 21,
                    TxArg.bytes 12, TxArg.bytes 22],
           value := none }]) :=
  ⟨rfl, rfl,
   C4_amended goodEnv initHookState 1 2 Prediction.even 10 _ _
     rfl rfl rfl rfl rfl⟩

/-! ## C5: clean failure when encryption is unavailable or fails -/

/-- C5: when `encryptWith` is unavailable or either encryption call returns
a falsy result, `startGame` fails cleanly: an error is reported, no
transaction is submitted and the session list is exactly what it was
(never a half-applied mutation). -/
theorem C5_clean_failure (env : Env) (st : HookState) (now d : ℕ)
    (p : Prediction) (s : ℚ)
    (h : env.encryptWithAvailable = false ∨ env.encPrediction = none ∨
         env.encStake = none) :
    (startGame env st now d p s).error.isSome = true ∧
    (startGame env st now d p s).submittedTxs = st.submittedTxs ∧
    (startGame env st now d p s).gameHistory = st.gameHistory := by
  rcases h with h | h | h
  · simp [startGame, h]
  · cases hg : (env.contractAvailable && env.walletConnected &&
        env.encryptWithAvailable) <;>
      simp [startGame, hg, h]
  · cases hg : (env.contractAvailable && env.walletConnected &&
        env.encryptWithAvailable) <;>
      cases hp : env.encPrediction <;>
      simp [startGame, hg, hp, h]

/-- An environment whose FHE client never became available. -/
def noFheEnv : Env :=
  { contractAvailable := true, walletConnected := true,
    encryptWithAvailable := false, encPrediction := none, encStake := none }

/-- Witness for C5: with no FHE client, `startGame` errors and leaves the
transaction log and session list untouched. -/
theorem C5_witness :
    (noFheEnv.encryptWithAvailable = false ∨ noFheEnv.encPrediction = none ∨
      noFheEnv.encStake = none) ∧
    ((startGame noFheEnv initHookState 0 2 Prediction.even 10).error.isSome = true ∧
     (startGame noFheEnv initHookState 0 2 Prediction.even 10).submittedTxs =
       initHookState.submittedTxs ∧
     (startGame noFheEnv initHookState 0 2 Prediction.even 10).gameHistory =
       initHookState.gameHistory) :=
  ⟨Or.inl rfl,
   C5_clean_failure noFheEnv initHookState 0 2 Prediction.even 10 (Or.inl rfl)⟩

/-! ## C6: session id assignment -/

/-- Counterexample to C6: two distinct sessions started back-to-back (no
`gameCounter` refresh in between) both receive id `0` — ids are neither
unique nor next-unused. -/
theorem C6_counterexample :
    (runHook [HookOp.startOp goodEnv 1 2 Prediction.even 10,
              HookOp.startOp goodEnv 2 2 Prediction.odd 5]).gameHistory.length = 2 ∧
    (runHook [HookOp.startOp goodEnv 1 2 Prediction.even 10,
              HookOp.startOp goodEnv 2 2 Prediction.odd 5]).gameHistory.map
      (fun r => r.id) = [0, 0] := by
  decide

/-- C6 (amended): each new contract-path session's id is the last fetched
on-chain `gameCounter` (0 before any fetch), so two sessions created under
the same cached counter share an id; ids of two creations are distinct
exactly when the cached counter changes (e.g. is refreshed from the chain)
in between. -/
theorem C6_amended (env : Env) (st : HookState) (now1 now2 d1 d2 : ℕ)
    (p1 p2 : Prediction) (s1 s2 : ℚ) (c : ℕ) (encP encS : EncResult)
    (hc : env.contractAvailable = true) (hw : env.walletConnected = true)
    (he : env.encryptWithAvailable = true)
    (hp : env.encPrediction = some encP) (hs : env.encStake = some encS)
    (hne : c ≠ st.gameCounter.getD 0) :
    ∃ r2 r1 rest,
      (startGame env
          (refreshGameCounter (startGame env st now1 d1 p1 s1) c)
          now2 d2 p2 s2).gameHistory = r2 :: r1 :: rest ∧
      r1.id = st.gameCounter.getD 0 ∧ r2.id = c ∧ r2.id ≠ r1.id := by
  simp only [startGame, refreshGameCounter, hc, hw, he, hp, hs,
    Bool.and_self, if_true]
  exact ⟨_, _, st.gameHistory, rfl, rfl, rfl, hne⟩

/-- Witness for C6 (amended): refreshing the counter from 0 to 1 between two
creations yields ids 1 and 0, which differ. -/
theorem C6_witness :
    ((1 : ℕ) ≠ initHookState.gameCounter.getD 0) ∧
    (∃ r2 r1 rest,
      (startGame goodEnv
          (refreshGameCounter
            (startGame goodEnv initHookState 1 2 Prediction.even 10) 1)
          2 3 Prediction.odd 5).gameHistory = r2 :: r1 :: rest ∧
      r1.id = initHookState.gameCounter.getD 0 ∧ r2.id = 1 ∧ r2.id ≠ r1.id) :=
  ⟨by decide,
   C6_amended goodEnv initHookState 1 2 2 3 Prediction.even Prediction.odd
     10 5 1 _ _ rfl rfl rfl rfl rfl (by decide)⟩

/-! ## C7: derived statistics -/

lemma netProfit_fold (records : List DemoRecord) :
    (records.map (fun r => r.payout - r.bet)).sum = netProfitSpec records := by
  induction records with
  | nil => rfl
  | cons r rs ih => simp [netProfitSpec, ih]

lemma totalStaked_fold (records : List DemoRecord) :
    (records.map (fun r => r.bet)).sum = totalStakedSpec records := by
  induction records with
  | nil => rfl
  | cons r rs ih => simp [totalStakedSpec, ih]

lemma winCount_fold (records : List DemoRecord) :
    (records.filter (fun r => r.result == RollResult.win)).length =
      winCountSpec records := by
  induction records with
  | nil => rfl
  | cons r rs ih =>
    by_cases h : r.result = RollResult.win
    · simp only [List.filter_cons, winCountSpec, h]
      simp [ih, Nat.add_comm]
    · simp only [List.filter_cons, winCountSpec, h]
      simp [ih, h]

/-- C7: the statistics are a pure function of the current record list —
`totalGames` is the record count, `wins` the number of won games,
`totalWagered` the sum of the stakes, and `netProfit` exactly the sum over
the (all resolved) records of `payout - stake`; appending a newly resolved
record shifts `netProfit` by exactly that record's `payout - stake`, so no
separately maintained cache is involved. -/
theorem C7_statistics (records : List DemoRecord) :
    (statsOf records).netProfit = netProfitSpec records ∧
    (statsOf records).totalGames = records.length ∧
    (statsOf records).wins = winCountSpec records ∧
    (statsOf records).totalWagered = totalStakedSpec records ∧
    ∀ r : DemoRecord,
      (statsOf (records ++ [r])).netProfit =
        (statsOf records).netProfit + (r.payout - r.bet) := by
  refine ⟨netProfit_fold records, rfl, winCount_fold records,
    totalStaked_fold records, fun r => ?_⟩
  simp [statsOf]

/-! ## C8: win condition and payout -/

/-- C8: a resolved demo roll with dice `ds`, prediction `p` and stake
`s > 0` (covered by the balance) appends exactly one completed record whose
result is a win iff the parity of the dice sum matches the prediction
(EVEN ↔ even sum, ODD ↔ odd sum), with payout `1.95 × s` on a win and `0`
on a loss. -/
theorem C8_parity_payout (home : HomeState) (s : ℚ) (p : Prediction)
    (ds : List ℕ) (now : ℕ) (_h0 : 0 < s) (hb : s ≤ home.rollBalance) :
    (handleRollFallback home s p ds now).2 = none ∧
    (handleRollFallback home s p ds now).1.gameHistory =
      home.gameHistory ++
        [{ id := toString now, timestamp := now, diceMode := ds.length,
           diceValues := ds, bet := s,
           result := if (p = Prediction.even ∧ ds.sum % 2 = 0) ∨
                        (p = Prediction.odd ∧ ds.sum % 2 = 1)
                     then RollResult.win else RollResult.loss,
           payout := if (p = Prediction.even ∧ ds.sum % 2 = 0) ∨
                        (p = Prediction.odd ∧ ds.sum % 2 = 1)
                     then s * (195 / 100) else 0 }] := by
  have hnb : ¬ home.rollBalance < s := not_lt.mpr hb
  cases p <;> rcases Nat.mod_two_eq_zero_or_one ds.sum with hm | hm <;>
    simp [handleRollFallback, homeHandleRoll, hnb, hm]

/-- Witness for C8: dice `[3, 5]` (sum 8, even), prediction EVEN, stake 10 —
a win paying exactly `19.5`. -/
theorem C8_witness :
    (0 : ℚ) < 10 ∧ (10 : ℚ) ≤ initHomeState.rollBalance ∧
    ((handleRollFallback initHomeState 10 Prediction.even [3, 5] 7).2 = none ∧
     (handleRollFallback initHomeState 10 Prediction.even [3, 5] 7).1.gameHistory =
       initHomeState.gameHistory ++
         [{ id := toString 7, timestamp := 7, diceMode := ([3, 5] : List ℕ).length,
            diceValues := [3, 5], bet := 10,
            result := RollResult.win, payout := 39 / 2 }]) := by
  refine ⟨by decide, by decide, ?_⟩
  have hc : (Prediction.even = Prediction.even ∧ ([3, 5] : List ℕ).sum % 2 = 0) ∨
      (Prediction.even = Prediction.odd ∧ ([3, 5] : List ℕ).sum % 2 = 1) := by
    decide
  have h := C8_parity_payout initHomeState 10 Prediction.even [3, 5] 7
    (by decide) (by decide)
  rw [if_pos hc, if_pos hc] at h
  have hpay : (10 : ℚ) * (195 / 100) = 39 / 2 := by norm_num
  rw [hpay] at h
  exact h

/-! ## C9: swap validation and balance updates -/

/-- Counterexample to C9: swapping the non-positive amount `0` fails with
the invalid-amount error, not the `InsufficientBalance` error the claim
demands for `amount ≤ 0` (the balances are indeed unchanged). -/
theorem C9_counterexample :
    handleSwap initHomeState false SwapDirection.eth (some 0) =
      (initHomeState, some SwapError.invalidAmount) ∧
    SwapError.invalidAmount ≠ SwapError.insufficientBalance := by
  decide

/-- C9 (amended): on the demo path, a swap of `0 < amount ≤` the
source-currency balance debits the source by exactly `amount` and credits
the target by exactly `amount × 1000` (ETH→ROLL) or `amount / 1000`
(ROLL→ETH) in one atomic state update; `amount` above the source balance
fails with `InsufficientBalance` and changes nothing; a non-positive or
non-numeric amount fails with the invalid-amount error (not
`InsufficientBalance`) and changes nothing. -/
theorem C9_amended (home : HomeState) (amount : ℚ) (h0 : 0 < amount) :
    (amount ≤ home.ethBalance →
      handleSwap home false SwapDirection.eth (some amount) =
        ({ home with ethBalance := home.ethBalance - amount,
                     rollBalance := home.rollBalance + amount * 1000 }, none)) ∧
    (amount ≤ home.rollBalance →
      handleSwap home false SwapDirection.roll (some amount) =
        ({ home with rollBalance := home.rollBalance - amount,
                     ethBalance := home.ethBalance + amount / 1000 }, none)) ∧
    (home.ethBalance < amount →
      handleSwap home false SwapDirection.eth (some amount) =
        (home, some SwapError.insufficientBalance)) ∧
    (home.rollBalance < amount →
      handleSwap home false SwapDirection.roll (some amount) =
        (home, some SwapError.insufficientBalance)) := by
  have hn0 : ¬ amount ≤ 0 := not_le.mpr h0
  refine ⟨fun h => ?_, fun h => ?_, fun h => ?_, fun h => ?_⟩
  · simp [handleSwap, homeHandleSwap, hn0, not_lt.mpr h]
  · simp [handleSwap, homeHandleSwap, hn0, not_lt.mpr h]
  · simp [handleSwap, hn0, h]
  · simp [handleSwap, hn0, h]

/-- Witness for C9 (amended): swapping 1 ETH at the fixed rate yields
balances `eth = 4`, `roll = 2000`, atomically. -/
theorem C9_witness :
    (0 : ℚ) < 1 ∧ (1 : ℚ) ≤ initHomeState.ethBalance ∧
    handleSwap initHomeState false SwapDirection.eth (some 1) =
      ({ rollBalance := 2000, ethBalance := 4, gameHistory := [] }, none) := by
  refine ⟨by decide, by decide, ?_⟩
  have h := (C9_amended initHomeState 1 (by decide)).1 (by decide)
  simp only [initHomeState] at h
  norm_num at h
  exact h

/-! ## C10: demo-only balance precondition -/

/-- C10: with `0 < stake` and `stake` above the ROLL balance, the demo
(fallback) path rejects the roll with the insufficient-balance error and
changes neither the history nor the balances, while the contract path
performs no balance check: the same stake goes through, submitting a
transaction and creating a session. -/
theorem C10_demo_balance_check (env : Env) (hook : HookState)
    (home : HomeState) (stake : ℚ) (d : ℕ) (p : Prediction)
    (dice : List ℕ) (now : ℕ) (h0 : 0 < stake)
    (hb : home.rollBalance < stake) :
    (env.contractAvailable = false →
      handleRoll env hook home (some stake) d p dice now =
        (hook, home, some RollError.insufficientBalance)) ∧
    (env.contractAvailable = true → env.walletConnected = true →
     env.encryptWithAvailable = true →
     ∀ encP encS, env.encPrediction = some encP → env.encStake = some encS →
      (handleRoll env hook home (some stake) d p dice now).2.2 = none ∧
      (handleRoll env hook home (some stake) d p dice now).2.1 = home ∧
      (handleRoll env hook home (some stake) d p dice now).1.submittedTxs.length =
        hook.submittedTxs.length + 1 ∧
      (handleRoll env hook home (some stake) d p dice now).1.gameHistory.length =
        hook.gameHistory.length + 1) := by
  have hn0 : ¬ stake ≤ 0 := not_le.mpr h0
  constructor
  · intro hc
    simp [handleRoll, hn0, hc, handleRollFallback, hb]
  · intro hc hw he encP encS hp hs
    simp [handleRoll, hn0, hc, startGame, hw, he, hp, hs]

/-- An environment with no deployed contract (pure demo mode). -/
def demoEnv : Env :=
  { contractAvailable := false, walletConnected := false,
    encryptWithAvailable := false, encPrediction := none, encStake := none }

/-- Witness for C10: staking 2000 against a ROLL balance of 1000 in demo
mode is rejected with the insufficient-balance error and no state change. -/
theorem C10_witness :
    (0 : ℚ) < 2000 ∧ initHomeState.rollBalance < 2000 ∧
    handleRoll demoEnv initHookState initHomeState (some 2000) 1
        Prediction.even [4] 3 =
      (initHookState, initHomeState, some RollError.insufficientBalance) :=
  ⟨by decide, by decide,
   (C10_demo_balance_check demoEnv initHookState initHomeState 2000 1
      Prediction.even [4] 3 (by decide) (by decide)).1 rfl⟩

end DiceGame
